import Mathlib

/-!
Verification development for the TorrentFlix multi-source torrent/metadata
search core.  The Python source is shallowly embedded: pure computations
become Lean functions, network transports become explicit oracle arguments
(`String → Option Nat` probes, outcome sum types, page-fetch functions),
file-system state becomes explicit store passing, and Python exceptions
become `Except`/`Option` results.  Machine integers of the source are
modelled as `Nat` (all the quantities involved — years, seed counts,
timestamps, retry counters — are non-negative in the source's data model).
-/

/-! ## Python string primitives used throughout the source -/

/-- Digit extraction with a structural fuel (any fuel above the argument
yields the digits — see `natDigitsAux_congr`; the fuel keeps the definition
reducible inside the kernel). -/
def natDigitsAux : Nat → Nat → List Char
  | 0, _ => []
  | fuel + 1, n =>
    if n < 10 then [Nat.digitChar n]
    else natDigitsAux fuel (n / 10) ++ [Nat.digitChar (n % 10)]

/-- Decimal digit characters of a natural number, most significant first —
the embedding of Python's `str(n)` for a non-negative int. -/
def natDigits (n : Nat) : List Char :=
  natDigitsAux (n + 1) n

/-- Python `str(n)` for a non-negative int. -/
def natStr (n : Nat) : String :=
  String.mk (natDigits n)

/-- Python `f"{n:02d}"`: zero-pad to two digits. -/
def pad2 (n : Nat) : String :=
  if n < 10 then "0" ++ natStr n else natStr n

/-- Characters matched by Python's regex `\s` / stripped by `str.strip()`. -/
def pyIsSpace (c : Char) : Bool :=
  c == ' ' || c == '\t' || c == '\n' || c == '\r' || c == '\x0b' || c == '\x0c'

/-- Python `str.lower()`, character-wise (the embedding keeps it executable
by kernel reduction, unlike `String.toLower`). -/
def strLower (s : String) : String :=
  String.mk (s.data.map Char.toLower)

/-- Python `str.strip()`: whitespace removed from both ends. -/
def strStrip (s : String) : String :=
  String.mk (((s.data.dropWhile pyIsSpace).reverse.dropWhile pyIsSpace).reverse)

/-! ## Domain model (`src/domin/models.py`, duplicated verbatim in
`src/legacy/torrent_search copy 2.py`)

`Torrent` and `Movie` are frozen dataclasses.  The `metacritic_info` and
`metadata` fields hold Python dicts whose schema the core treats as opaque
nested data, so `Movie` is parameterised by the payload type `α`.
`rating` is a Python float used only as an opaque stored value (never
computed with), modelled as `Rat`. -/

structure Torrent where
  quality : String
  type : String
  url : String
  size : String
  seeds : Nat
  peers : Nat
  date_uploaded : String
  video_codec : String
  deriving DecidableEq

structure Movie (α : Type) where
  title : String
  torrents : List Torrent
  poster_url : String
  rating : Rat
  genres : List String
  description_full : String
  year : Nat
  language : String
  runtime : Nat
  imdb_code : String
  cast : List String
  download_count : Nat
  yt_trailer_code : String
  background_image_original : String
  metacritic_url : String := ""
  metacritic_info : Option α := none
  metadata : Option α := none
  deriving DecidableEq

/-- Embedding of `Movie.with_metacritic_data`: builds a fresh `Movie` passing
exactly the fourteen primary fields plus the two metacritic fields to the
constructor (the `metadata` argument is not passed, so it takes its dataclass
default `None`). -/
def Movie.with_metacritic_data {α : Type} (m : Movie α) (url : String) (info : α) : Movie α :=
  { title := m.title
    torrents := m.torrents
    poster_url := m.poster_url
    rating := m.rating
    genres := m.genres
    description_full := m.description_full
    year := m.year
    language := m.language
    runtime := m.runtime
    imdb_code := m.imdb_code
    cast := m.cast
    download_count := m.download_count
    yt_trailer_code := m.yt_trailer_code
    background_image_original := m.background_image_original
    metacritic_url := url
    metacritic_info := some info }

/-- Embedding of `Movie.with_metadata`: builds a fresh `Movie` passing exactly
the fourteen primary fields plus `metadata` to the constructor (the
`metacritic_url` / `metacritic_info` arguments are not passed, so they take
their dataclass defaults `''` and `None`). -/
def Movie.with_metadata {α : Type} (m : Movie α) (metadata : α) : Movie α :=
  { title := m.title
    torrents := m.torrents
    poster_url := m.poster_url
    rating := m.rating
    genres := m.genres
    description_full := m.description_full
    year := m.year
    language := m.language
    runtime := m.runtime
    imdb_code := m.imdb_code
    cast := m.cast
    download_count := m.download_count
    yt_trailer_code := m.yt_trailer_code
    background_image_original := m.background_image_original
    metadata := some metadata }

/-! ## Deduplication + merge (`TorrentSearcher._deduplicate_results`,
`src/legacy/torrent_search copy 2.py` lines 704-728) -/

namespace TorrentSearcher

/-- The dedup key `f"{movie.title.lower()}_{movie.year}"`. -/
def dedupKey {α : Type} (m : Movie α) : String :=
  strLower m.title ++ "_" ++ natStr m.year

/-- On a key collision the source mutates the first-seen movie found by
`next(m for m in unique if ...)`, extending its torrent list in place:
`existing.torrents.extend(movie.torrents)`.  Embedded as replacing the first
element of `unique` carrying the colliding key. -/
def mergeFirst {α : Type} : List (Movie α) → Movie α → List (Movie α)
  | [], _ => []
  | x :: xs, m =>
    if dedupKey x == dedupKey m then
      { x with torrents := x.torrents ++ m.torrents } :: xs
    else
      x :: mergeFirst xs m

/-- The loop of `_deduplicate_results`.  The source keeps a `seen` set of keys
alongside the `unique` list; the two are kept in sync (a key is in `seen` iff
a movie with that key is in `unique`), so the membership test is embedded as
a scan of `unique`. -/
def dedupGo {α : Type} : List (Movie α) → List (Movie α) → List (Movie α)
  | unique, [] => unique
  | unique, m :: rest =>
    if unique.any (fun x => dedupKey x == dedupKey m) then
      dedupGo (mergeFirst unique m) rest
    else
      dedupGo (unique ++ [m]) rest

/-- Embedding of `TorrentSearcher._deduplicate_results`. -/
def deduplicate_results {α : Type} (results : List (Movie α)) : List (Movie α) :=
  dedupGo [] results

/-! ## Sort step of `TorrentSearcher.search` (lines 666-670)

`sorted(unique_results, key=lambda x: max(t.seeds for t in x.torrents),
reverse=True)[:limit]`.  Python's `max` over an empty generator raises
`ValueError`, so the sort key is partial; the whole `sorted` call raises as
soon as the key function raises for some element, i.e. exactly when some
movie's torrent list is empty. -/

/-- The sort key `max(t.seeds for t in x.torrents)`: `none` models the
`ValueError` raised by `max` on an empty sequence. -/
def maxSeeds {α : Type} (m : Movie α) : Option Nat :=
  match m.torrents.map Torrent.seeds with
  | [] => none
  | s :: ss => some (ss.foldl max s)

/-- Total version of the sort key; it is only consulted on movies with a
non-empty torrent list (the guarded branch of `sort_step`). -/
def seedKey {α : Type} (m : Movie α) : Nat :=
  (maxSeeds m).getD 0

/-- Comparator for Python's stable `sorted(..., reverse=True)`: descending by
seed key, ties kept in upstream order. -/
def seedLe {α : Type} (a b : Movie α) : Bool :=
  seedKey b ≤ seedKey a

/-- Embedding of the sort-and-truncate step of `TorrentSearcher.search`:
raises (`Except.error`) exactly when some movie's torrent list is empty —
Python evaluates the key on every element and `max(())` raises `ValueError`
— and otherwise sorts descending by maximum seed count (stably) and
truncates to `limit`. -/
def sort_step {α : Type} (l : List (Movie α)) (limit : Nat) :
    Except String (List (Movie α)) :=
  if l.all (fun m => !m.torrents.isEmpty) then
    .ok ((l.mergeSort seedLe).take limit)
  else
    .error "ValueError: max() arg is an empty sequence"

end TorrentSearcher

/-! ## Source registry (`src/domin/models.py`, `TorrentSource`)

The Python `Enum` members carry configuration dicts; the claims only consult
the display name, the category tag, the enumeration order and the explicit
per-category priority lists, which are embedded below. -/

inductive TorrentSource where
  | YTS | LEETX | RARBG | TORRENTGALAXY | EZTVX | EXT
  | OXTORRENT | THEPIRATEBAY | LIMETORRENTS | TORRENTDOWNLOADS | TORLOCK
  deriving DecidableEq

namespace TorrentSource

/-- The `"name"` entry of each member's configuration dict. -/
def name : TorrentSource → String
  | YTS => "YTS.mx"
  | LEETX => "1337x"
  | RARBG => "RARBG"
  | TORRENTGALAXY => "TorrentGalaxy"
  | EZTVX => "EZTVx"
  | EXT => "EXT"
  | OXTORRENT => "OxTorrent"
  | THEPIRATEBAY => "The Pirate Bay"
  | LIMETORRENTS => "LimeTorrents"
  | TORRENTDOWNLOADS => "TorrentDownloads"
  | TORLOCK => "Torlock"

/-- The `"category"` entry of each member's configuration dict
(`TorrentSource.get_category`). -/
def category : TorrentSource → String
  | YTS => "Movies"
  | LEETX => "All"
  | RARBG => "All"
  | TORRENTGALAXY => "All"
  | EZTVX => "TV Series"
  | EXT => "All"
  | OXTORRENT => "All"
  | THEPIRATEBAY => "All"
  | LIMETORRENTS => "All"
  | TORRENTDOWNLOADS => "All"
  | TORLOCK => "All"

/-- Enumeration order of the `Enum` members. -/
def all : List TorrentSource :=
  [YTS, LEETX, RARBG, TORRENTGALAXY, EZTVX, EXT,
   OXTORRENT, THEPIRATEBAY, LIMETORRENTS, TORRENTDOWNLOADS, TORLOCK]

/-- The `category_order` dict of `get_sources_by_category`: preferred order
for each category, in the dict's insertion order. -/
def category_order : List (String × List TorrentSource) :=
  [("Movies", [YTS]),
   ("TV Series", [LEETX, EZTVX]),
   ("All", [LEETX, RARBG, TORRENTGALAXY, EXT, OXTORRENT, THEPIRATEBAY,
            LIMETORRENTS, TORRENTDOWNLOADS, TORLOCK])]

/-- Point update of an insertion-ordered string-keyed dict. -/
def updateAssoc (d : List (String × List TorrentSource)) (k : String)
    (f : List TorrentSource → List TorrentSource) :
    List (String × List TorrentSource) :=
  d.map (fun e => if e.1 == k then (e.1, f e.2) else e)

/-- Lookup in an insertion-ordered string-keyed dict. -/
def lookupAssoc (d : List (String × List TorrentSource)) (k : String) :
    Option (List TorrentSource) :=
  (d.find? (fun e => e.1 == k)).map (fun e => e.2)

/-- Embedding of `TorrentSource.get_sources_by_category`: initialise the
categories dict with the `category_order` keys, extend each entry with the
preferred sources, then walk the enumeration appending every source whose
category is a key of the dict and which is not already in its category's
list. -/
def get_sources_by_category : List (String × List TorrentSource) :=
  let init := category_order.map (fun e => (e.1, ([] : List TorrentSource)))
  let preferred := category_order.foldl
    (fun d e => updateAssoc d e.1 (fun l => l ++ e.2)) init
  all.foldl
    (fun d s =>
      match lookupAssoc d s.category with
      | some l => if s ∈ l then d else updateAssoc d s.category (fun l0 => l0 ++ [s])
      | none => d)
    preferred

end TorrentSource

/-! ## Cache (`src/utils/chaching.py`)

The file system is embedded as a store mapping sanitized file keys to
entries; wall-clock time is an explicit `Nat` of seconds.  `cache_duration`
is `timedelta(minutes=5)`, i.e. 300 seconds. -/

namespace Cache

/-- One cache file: the JSON object `{'timestamp': ..., 'data': ...}`. -/
structure Entry (δ : Type) where
  timestamp : Nat
  data : δ

/-- The cache directory: sanitized key ↦ stored entry (or nothing). -/
def Store (δ : Type) := String → Option (Entry δ)

/-- Embedding of `Cache._get_cache_path`: keep alphanumerics, `-` and `_`,
then `rstrip()` trailing whitespace. -/
def sanitizeKey (key : String) : String :=
  let kept := key.data.filter (fun c => c.isAlphanum || c == '-' || c == '_')
  String.mk ((kept.reverse.dropWhile pyIsSpace).reverse)

/-- The fixed TTL, `timedelta(minutes=5)`, in seconds. -/
def cache_duration : Nat := 5 * 60

/-- Embedding of `Cache.get`: a missing entry is a miss; an entry whose age
strictly exceeds the TTL is removed from the store and reported as a miss;
otherwise the stored data is returned and the store is untouched. -/
def get {δ : Type} (store : Store δ) (now : Nat) (key : String) :
    Option δ × Store δ :=
  let path := sanitizeKey key
  match store path with
  | none => (none, store)
  | some e =>
    if cache_duration < now - e.timestamp then
      (none, fun p => if p = path then none else store p)
    else
      (some e.data, store)

/-- Embedding of `Cache.set`: write the payload together with the current
timestamp under the sanitized key. -/
def set {δ : Type} (store : Store δ) (now : Nat) (key : String) (data : δ) :
    Store δ :=
  let path := sanitizeKey key
  fun p => if p = path then some { timestamp := now, data := data } else store p

end Cache

/-! ## HTTP request layer (`src/utils/http_client.py`, `make_api_request`)

The network is embedded as an oracle `outcomes : Nat → Except ReqError ρ`
giving the result of the attempt with each index.  The function's observable
behaviour is its returned value plus the trace of attempts it issued; each
issued attempt records whether it was the fast minimal-header 1-second
variant and the `time.sleep(backoff_factor * (2 ** attempt))` delay run
before it (in milliseconds, `backoff_factor = 0.5`). -/

namespace HttpClient

/-- A Python `requests.exceptions.RequestException` with its message. -/
inductive ReqError where
  | requestError (msg : String)
  deriving DecidableEq

/-- Observable description of one issued attempt: `fast` marks the
attempt-0 minimal-header / 1s-timeout / no-redirect request (subsequent
attempts use the browser-like header set, a 10s timeout and redirects);
`delayMs` is the backoff sleep run before the request. -/
structure HttpAttempt where
  fast : Bool
  delayMs : Nat
  deriving DecidableEq

/-- The attempt profile as a function of the loop index. -/
def attemptInfo (attempt : Nat) : HttpAttempt :=
  if attempt == 0 then { fast := true, delayMs := 0 }
  else { fast := false, delayMs := 500 * 2 ^ attempt }

/-- The `for attempt in range(retries)` loop: `fuel` is the number of loop
iterations left (`retries - attempt`).  A success returns at once; a
`RequestException` on the last iteration is re-raised, otherwise it is
logged and the loop continues.  Falling off the loop (only possible with
zero iterations left) returns Python `None`, modelled by `none`. -/
def runAttempts {ρ : Type} (outcomes : Nat → Except ReqError ρ) :
    Nat → Nat → Option (Except ReqError ρ) × List HttpAttempt
  | 0, _ => (none, [])
  | fuel + 1, attempt =>
    match outcomes attempt with
    | .ok r => (some (.ok r), [attemptInfo attempt])
    | .error e =>
      if fuel == 0 then (some (.error e), [attemptInfo attempt])
      else
        let rec_result := runAttempts outcomes fuel (attempt + 1)
        (rec_result.1, attemptInfo attempt :: rec_result.2)

/-- The hard-coded `retries = 3`. -/
def retries : Nat := 3

/-- Embedding of `make_api_request`: result together with the trace of
issued attempts. -/
def make_api_request {ρ : Type} (outcomes : Nat → Except ReqError ρ) :
    Option (Except ReqError ρ) × List HttpAttempt :=
  runAttempts outcomes retries 0

end HttpClient

/-! ## Error taxonomy (`src/utils/error_hadlings.py`) and the YTS searcher
(`src/providers/torrent/yts_searcher.py`)

`MovieAPIError` and `ConnectionBlockedError` are subclasses of the base
`MovieSearchError`; all three are `Exception`s.  The transport underneath
`_search_yts` is embedded as an outcome sum: a parsed successful response,
an HTTP-status failure (`requests.exceptions.HTTPError`), a refused
connection (`requests.exceptions.ConnectionError`), a reset connection
(`ConnectionResetError`), or any other processing failure. -/

inductive SearchErr where
  | searchError (msg : String)
  | apiError (msg : String)
  | connectionBlocked (msg : String)
  deriving DecidableEq

/-- Python `str(e)` on the raised exception. -/
def SearchErr.message : SearchErr → String
  | .searchError m => m
  | .apiError m => m
  | .connectionBlocked m => m

inductive TransportOutcome (ρ : Type) where
  | success (resp : ρ)
  | httpError (msg : String)
  | connectionRefused (msg : String)
  | connectionReset (msg : String)
  | otherFailure (msg : String)

namespace YTSSearcher

/-- Embedding of `YTSSearcher._search_yts`: maps each transport outcome to
the typed error raised by the method's `except` clauses (lines 91-96). -/
def search_yts {ρ : Type} (outcome : TransportOutcome ρ) : Except SearchErr ρ :=
  match outcome with
  | .success r => .ok r
  | .httpError m => .error (.apiError ("Failed to fetch movies: " ++ m))
  | .connectionRefused _ =>
    .error (.connectionBlocked "Connection blocked. Please ensure your VPN is enabled and try again.")
  | .connectionReset _ =>
    .error (.connectionBlocked "Connection blocked. Please ensure your VPN is enabled and try again.")
  | .otherFailure m => .error (.searchError ("Failed to process movie data: " ++ m))

/-- Embedding of the public `YTSSearcher.search_movies` (lines 16-25): the
body calls `_search_yts` inside `try`, and the `except Exception` clause
catches every exception — including the typed `SearchErr` subclasses raised
by `_search_yts` — and re-raises `MovieSearchError(f"Search failed: {e}")`. -/
def search_movies {ρ : Type} (outcome : TransportOutcome ρ) : Except SearchErr ρ :=
  match search_yts outcome with
  | .ok r => .ok r
  | .error e => .error (.searchError ("Search failed: " ++ e.message))

end YTSSearcher

/-! ## Title-cleaning regexes shared by the metadata adapters and the 1337x
searcher

Each Python regex used on titles is embedded as a direct character-list
scanner with `re.sub` / `re.search` semantics (leftmost match, greedy
quantifiers with backtracking, non-overlapping global substitution). -/

/-- Case-insensitive literal match at the head of the list; returns the rest
on success. -/
def litMatchCI : List Char → List Char → Option (List Char)
  | [], cs => some cs
  | _ :: _, [] => none
  | l :: ls, c :: cs => if c.toLower == l.toLower then litMatchCI ls cs else none

/-- Greedy `\s*`. -/
def skipWs (cs : List Char) : List Char :=
  cs.dropWhile pyIsSpace

/-- Does `(Season|S)\s*\d` match here (case-insensitively)?  This is the
prefix of `r'(Season|S)\s*\d+.*$'` that determines whether the pattern
matches at a position (the `\d+.*$` tail always succeeds once one digit is
seen). -/
def seasonTokenHere (cs : List Char) : Bool :=
  (match litMatchCI "season".data cs with
   | some rest =>
     match skipWs rest with
     | d :: _ => d.isDigit
     | [] => false
   | none => false) ||
  (match cs with
   | c :: rest =>
     c.toLower == 's' &&
       (match skipWs rest with
        | d :: _ => d.isDigit
        | [] => false)
   | [] => false)

/-- Embedding of `re.sub(r'(Season|S)\s*\d+.*$', '', s, flags=IGNORECASE)`:
truncate at the leftmost position where the pattern matches (the match runs
to the end of the string). -/
def truncateAtSeasonToken : List Char → List Char
  | [] => []
  | c :: rest =>
    if seasonTokenHere (c :: rest) then [] else c :: truncateAtSeasonToken rest

/-- Everything after the first closing parenthesis, if one exists. -/
def afterClose : List Char → Option (List Char)
  | [] => none
  | ')' :: rest => some rest
  | _ :: rest => afterClose rest

/-- Embedding of `re.sub(r'\([^)]*\)', '', s)` with a structural fuel (the
input length bounds the recursion depth, every step consuming at least one
character): drop every parenthesis group up to the nearest closing
parenthesis; an unclosed `(` matches nothing and is kept. -/
def removeParenGroupsAux : Nat → List Char → List Char
  | 0, cs => cs
  | _ + 1, [] => []
  | fuel + 1, '(' :: rest =>
    match afterClose rest with
    | some rest2 => removeParenGroupsAux fuel rest2
    | none => '(' :: removeParenGroupsAux fuel rest
  | fuel + 1, c :: rest => c :: removeParenGroupsAux fuel rest

def removeParenGroups (cs : List Char) : List Char :=
  removeParenGroupsAux cs.length cs

/-- Embedding of `re.sub(r'\s+\d{4}$', '', s)`: if the string ends in four
digits immediately preceded by whitespace, drop the digits together with the
whole contiguous whitespace run before them. -/
def dropTrailingYear (cs : List Char) : List Char :=
  match cs.reverse with
  | d1 :: d2 :: d3 :: d4 :: w :: rest =>
    if d1.isDigit && d2.isDigit && d3.isDigit && d4.isDigit && pyIsSpace w then
      ((w :: rest).dropWhile pyIsSpace).reverse
    else cs
  | _ => cs

/-- Character class `[\w\s-]` (the characters kept by
`re.sub(r'[^\w\s-]', '', s)`). -/
def keepWordSpaceDash (c : Char) : Bool :=
  c.isAlphanum || c == '_' || pyIsSpace c || c == '-'

/-- Embedding of `re.sub(r'\s+', '_', s)` with a structural fuel (the input
length bounds the recursion depth): every maximal whitespace run becomes a
single underscore. -/
def collapseWsAux : Nat → List Char → List Char
  | 0, cs => cs
  | _ + 1, [] => []
  | fuel + 1, c :: rest =>
    if pyIsSpace c then '_' :: collapseWsAux fuel (rest.dropWhile pyIsSpace)
    else c :: collapseWsAux fuel rest

def collapseWsToUnderscore (cs : List Char) : List Char :=
  collapseWsAux cs.length cs

/-! ## Metadata adapters' URL resolution
(`src/providers/metadata/metacritic.py` lines 10-46,
`src/providers/metadata/rotten_tomatoes.py` lines 10-43)

The HEAD existence probe is embedded as an oracle
`probe : String → Option Nat`: `some status` is a completed response with
that HTTP status, `none` a raised `requests.RequestException`. -/

/-- The probing loop shared by both adapters: walk the candidate list in
order, return the first candidate whose probe completes with status 200
(empty string when none does), together with the list of candidates actually
probed. -/
def probeLoop (probe : String → Option Nat) : List String → String × List String
  | [] => ("", [])
  | u :: rest =>
    if probe u == some 200 then (u, [u])
    else
      let r := probeLoop probe rest
      (r.1, u :: r.2)

namespace MetacriticSource

/-- The slug cleaning of `MetacriticSource.get_url` (lines 13-18). -/
def cleanTitle (title : String) : String :=
  let s1 := strStrip (String.mk (truncateAtSeasonToken title.data))
  let s2 := strStrip (String.mk (removeParenGroups s1.data))
  let s3 := strStrip (String.mk (dropTrailingYear s2.data))
  let s4 := String.mk ((strLower s3).data.filter keepWordSpaceDash)
  String.mk (s4.data.map (fun c => if c == ' ' then '-' else c))

/-- The `url_patterns` candidate list (lines 21-26). -/
def url_patterns (title : String) (year : Nat) : List String :=
  let ct := cleanTitle title
  ["https://www.metacritic.com/movie/" ++ ct ++ "/",
   "https://www.metacritic.com/tv/" ++ ct ++ "/",
   "https://www.metacritic.com/movie/" ++ ct ++ "-" ++ natStr year ++ "/",
   "https://www.metacritic.com/tv/" ++ ct ++ "-" ++ natStr year ++ "/"]

/-- Embedding of `MetacriticSource.get_url`. -/
def get_url (probe : String → Option Nat) (title : String) (year : Nat) : String :=
  (probeLoop probe (url_patterns title year)).1

/-- The candidates `get_url` actually probes. -/
def probed (probe : String → Option Nat) (title : String) (year : Nat) : List String :=
  (probeLoop probe (url_patterns title year)).2

end MetacriticSource

namespace RottenTomatoesSource

/-- The slug cleaning of `RottenTomatoesSource.get_url` (lines 13-15). -/
def cleanTitle (title : String) : String :=
  let s1 := String.mk ((strLower title).data.filter keepWordSpaceDash)
  String.mk (collapseWsToUnderscore (strStrip s1).data)

/-- The `url_patterns` candidate list (lines 18-23). -/
def url_patterns (title : String) (year : Nat) : List String :=
  let ct := cleanTitle title
  ["https://www.rottentomatoes.com/m/" ++ ct ++ "_" ++ natStr year,
   "https://www.rottentomatoes.com/m/" ++ ct,
   "https://www.rottentomatoes.com/tv/" ++ ct ++ "_" ++ natStr year,
   "https://www.rottentomatoes.com/tv/" ++ ct]

/-- Embedding of `RottenTomatoesSource.get_url`. -/
def get_url (probe : String → Option Nat) (title : String) (year : Nat) : String :=
  (probeLoop probe (url_patterns title year)).1

/-- The candidates `get_url` actually probes. -/
def probed (probe : String → Option Nat) (title : String) (year : Nat) : List String :=
  (probeLoop probe (url_patterns title year)).2

end RottenTomatoesSource

/-! ## 1337x TV searcher (`src/providers/torrent/leetx_searcher.py`)

`_parse_show_title` matches a fixed list of regexes against the raw release
name; each is embedded as a position-by-position scanner with Python
`re.search` semantics (`IGNORECASE`, leftmost position wins, `\d{1,2}`
greedy with backtracking). -/

namespace LeetxTVSearcher

/-- Greedy `(\d{1,2})` with backtracking: parse alternatives in preference
order (two digits first, then one), each with the remaining input. -/
def digits2then1 : List Char → List (Nat × List Char)
  | d1 :: d2 :: rest =>
    if d1.isDigit && d2.isDigit then
      [((d1.toNat - '0'.toNat) * 10 + (d2.toNat - '0'.toNat), rest),
       (d1.toNat - '0'.toNat, d2 :: rest)]
    else if d1.isDigit then [(d1.toNat - '0'.toNat, d2 :: rest)]
    else []
  | [d1] => if d1.isDigit then [(d1.toNat - '0'.toNat, [])] else []
  | [] => []

/-- Pattern `S(\d{1,2})E(\d{1,2})` at the current position. -/
def seHere : List Char → Option (Nat × Nat)
  | c :: rest =>
    if c.toLower == 's' then
      (digits2then1 rest).findSome? (fun sc =>
        match sc.2 with
        | e :: rest2 =>
          if e.toLower == 'e' then
            ((digits2then1 rest2).head?).map (fun ep => (sc.1, ep.1))
          else none
        | [] => none)
    else none
  | [] => none

/-- Pattern `[.\s](\d{1,2})x(\d{1,2})[.\s]` at the current position. -/
def xHere : List Char → Option (Nat × Nat)
  | c :: rest =>
    if c == '.' || pyIsSpace c then
      (digits2then1 rest).findSome? (fun sc =>
        match sc.2 with
        | x :: rest2 =>
          if x.toLower == 'x' then
            (digits2then1 rest2).findSome? (fun ec =>
              match ec.2 with
              | t :: _ => if t == '.' || pyIsSpace t then some (sc.1, ec.1) else none
              | [] => none)
          else none
        | [] => none)
    else none
  | [] => none

/-- Pattern `Season\s*(\d{1,2})\s*Episode\s*(\d{1,2})` at the current
position. -/
def longFormHere (cs : List Char) : Option (Nat × Nat) :=
  match litMatchCI "season".data cs with
  | none => none
  | some r1 =>
    (digits2then1 (skipWs r1)).findSome? (fun sc =>
      match litMatchCI "episode".data (skipWs sc.2) with
      | none => none
      | some r2 => ((digits2then1 (skipWs r2)).head?).map (fun ep => (sc.1, ep.1)))

/-- Pattern `[.\s]E(\d{1,2})[.\s]` at the current position (season defaults
to 1). -/
def eHere : List Char → Option (Nat × Nat)
  | c :: rest =>
    if c == '.' || pyIsSpace c then
      match rest with
      | e :: rest2 =>
        if e.toLower == 'e' then
          (digits2then1 rest2).findSome? (fun ec =>
            match ec.2 with
            | t :: _ => if t == '.' || pyIsSpace t then some (1, ec.1) else none
            | [] => none)
        else none
      | [] => none
    else none
  | [] => none

/-- Season-pack pattern `Season\s*(\d{1,2})` at the current position. -/
def seasonWordHere (cs : List Char) : Option Nat :=
  match litMatchCI "season".data cs with
  | none => none
  | some r1 => ((digits2then1 (skipWs r1)).head?).map (fun sc => sc.1)

/-- Season-pack pattern `S(\d{1,2})\s*Complete` at the current position. -/
def sCompleteHere : List Char → Option Nat
  | c :: rest =>
    if c.toLower == 's' then
      (digits2then1 rest).findSome? (fun sc =>
        match litMatchCI "complete".data (skipWs sc.2) with
        | some _ => some sc.1
        | none => none)
    else none
  | [] => none

/-- Season-pack pattern `Complete\s*S(\d{1,2})` at the current position. -/
def completeSHere (cs : List Char) : Option Nat :=
  match litMatchCI "complete".data cs with
  | none => none
  | some r1 =>
    match skipWs r1 with
    | c :: rest =>
      if c.toLower == 's' then ((digits2then1 rest).head?).map (fun sc => sc.1)
      else none
    | [] => none

/-- Leftmost `re.search`: try the position-matcher at offsets 0, 1, 2, …
and return the first hit together with its `match.start()`. -/
def searchLeftmost {β : Type} (f : List Char → Option β) :
    List Char → Nat → Option (Nat × β)
  | [], _ => none
  | c :: rest, i =>
    match f (c :: rest) with
    | some b => some (i, b)
    | none => searchLeftmost f rest (i + 1)

/-- The `season_episode_patterns` list, tried in order; each pattern is
searched over the whole string before the next is tried. -/
def findSeasonEpisode (cs : List Char) : Option (Nat × (Nat × Nat)) :=
  match searchLeftmost seHere cs 0 with
  | some r => some r
  | none =>
    match searchLeftmost xHere cs 0 with
    | some r => some r
    | none =>
      match searchLeftmost longFormHere cs 0 with
      | some r => some r
      | none => searchLeftmost eHere cs 0

/-- The `season_patterns` season-pack list, tried in order. -/
def findSeasonPack (cs : List Char) : Option (Nat × Nat) :=
  match searchLeftmost seasonWordHere cs 0 with
  | some r => some r
  | none =>
    match searchLeftmost sCompleteHere cs 0 with
    | some r => some r
    | none => searchLeftmost completeSHere cs 0

/-- Embedding of `re.sub(r'\(\d{4}\)', '', s)`: drop every occurrence of a
parenthesised 4-digit year. -/
def removeParenYear : List Char → List Char
  | '(' :: d1 :: d2 :: d3 :: d4 :: ')' :: rest2 =>
    if d1.isDigit && d2.isDigit && d3.isDigit && d4.isDigit then
      removeParenYear rest2
    else '(' :: removeParenYear (d1 :: d2 :: d3 :: d4 :: ')' :: rest2)
  | c :: rest => c :: removeParenYear rest
  | [] => []

/-- Embedding of `re.sub(r'\s\d{4}\s', ' ', s)`: each non-overlapping
occurrence of a whitespace-delimited 4-digit group becomes a single space;
scanning resumes after the replaced region. -/
def removeStandaloneYear : List Char → List Char
  | w :: d1 :: d2 :: d3 :: d4 :: w2 :: rest2 =>
    if pyIsSpace w && d1.isDigit && d2.isDigit && d3.isDigit && d4.isDigit && pyIsSpace w2 then
      ' ' :: removeStandaloneYear rest2
    else w :: removeStandaloneYear (d1 :: d2 :: d3 :: d4 :: w2 :: rest2)
  | c :: rest => c :: removeStandaloneYear rest
  | [] => []

/-- Trailing `re.sub(r'[\.\-\s]*$', '', s)`: drop the trailing run of dots,
dashes and whitespace. -/
def dropTrailingJunk (cs : List Char) : List Char :=
  (cs.reverse.dropWhile (fun c => c == '.' || c == '-' || pyIsSpace c)).reverse

/-- Case-sensitive substring test, the embedding of Python's
`pattern in raw_title`. -/
def containsSub (pat : List Char) : List Char → Bool
  | [] => pat.isEmpty
  | c :: rest => pat.isPrefixOf (c :: rest) || containsSub pat rest

/-- The `quality_patterns` dict lookup: first key (in insertion order) that
occurs as a substring of the raw title. -/
def detectQuality (raw : List Char) : String :=
  if containsSub "2160p".data raw then "2160p"
  else if containsSub "1080p".data raw then "1080p"
  else if containsSub "720p".data raw then "720p"
  else if containsSub "480p".data raw then "480p"
  else if containsSub "HDTV".data raw then "HDTV"
  else "unknown"

/-- The `codec_patterns` dict lookup, in insertion order. -/
def detectCodec (raw : List Char) : String :=
  if containsSub "x264".data raw then "x264"
  else if containsSub "x265".data raw then "x265"
  else if containsSub "HEVC".data raw then "HEVC"
  else if containsSub "XviD".data raw then "XviD"
  else if containsSub "H264".data raw then "H264"
  else if containsSub "H.264".data raw then "H264"
  else "unknown"

/-- The structured result of `_parse_show_title` (the `result` dict). -/
structure ShowInfo where
  title : String
  season : Nat
  episode : Nat
  quality : String
  codec : String
  deriving DecidableEq

/-- Embedding of `LeetxTVSearcher._parse_show_title` (lines 209-294).  The
`try` body cannot raise (every step is total), so the function always
returns `some` — the `except` branch that returns `None` is dead.  When no
season/episode pattern and no season-pack pattern matches, the initialised
defaults `season = 0`, `episode = 0` survive and the title is the cleaned-up
whole raw string. -/
def parse_show_title (raw : String) : Option ShowInfo :=
  let cs := raw.data
  let parsed :=
    match findSeasonEpisode cs with
    | some r => (r.2.1, r.2.2, cs.take r.1)
    | none =>
      match findSeasonPack cs with
      | some r => (r.2, 0, cs.take r.1)
      | none => (0, 0, cs)
  let t1 := removeParenYear parsed.2.2
  let t2 := removeStandaloneYear t1
  let t3 := dropTrailingJunk (t2.map (fun c => if c == '.' then ' ' else c))
  some
    { title := strStrip (String.mk t3)
      season := parsed.1
      episode := parsed.2.1
      quality := detectQuality cs
      codec := detectCodec cs }

/-! ### The scraping loop of `_search_leetx_tv` (lines 34-207)

The HTML layer is embedded structurally: a results page is a list of rows
(each row the already-extracted cells of one `<tr>`) plus a next-page
affordance flag; the per-row detail-page fetch that extracts the magnet link
is an oracle `String → Option String` (`none` models a missing magnet link
or a failed detail fetch, which the per-row `except` catches and skips); the
TMDB client is an oracle `String → Except String (Option BaseShow)`
(`Except.error` models a raised TMDB/network exception, which the per-show
`except` catches and skips; `Option` is `search_tv_show` returning a hit or
`None`). -/

/-- The `td.name` cell: second anchor's text and `href`. -/
structure NameCell where
  raw_title : String
  href : String

/-- One parsed `<tr>` of the results table. -/
structure Row where
  name_cell : Option NameCell
  size : String
  seeds : Nat
  leeches : Nat
  date : String

/-- One fetched results page. -/
structure Page where
  rows : List Row
  has_next : Bool

/-- Failures of the page fetch `session.get(current_url)` /
`raise_for_status()`. -/
inductive FetchErr where
  | httpError (msg : String)
  | connectionFailure (msg : String)

/-- Torrents grouped as `shows[show_name][season][episode]`
(`defaultdict`s preserving key insertion order; episode 0 holds season
packs). -/
abbrev EpisodeMap := List (Nat × List Torrent)
abbrev SeasonMap := List (Nat × EpisodeMap)
abbrev ShowsMap := List (String × SeasonMap)

/-- Update-or-insert in an insertion-ordered dict: the embedding of indexing
a `defaultdict`. -/
def bump {κ β : Type} [BEq κ] (init : β) (f : β → β) (k : κ) :
    List (κ × β) → List (κ × β)
  | [] => [(k, f init)]
  | e :: rest => if e.1 == k then (e.1, f e.2) :: rest else e :: bump init f k rest

/-- `shows[show_name][season][episode].append(torrent)`. -/
def insertTorrent (shows : ShowsMap) (nm : String) (season episode : Nat)
    (t : Torrent) : ShowsMap :=
  bump [] (bump [] (bump [] (fun ts => ts ++ [t]) episode) season) nm shows

/-- The source's `base_url` for 1337x. -/
def base_url : String := "https://1337x.to"

/-- The `for result in results` row loop: a row with no name cell is skipped;
the parsed show info is consulted (`if not show_info: continue` — never taken,
see `parse_show_title`); a row whose detail page yields no magnet link raises
inside the row `try` and is logged and skipped; otherwise the torrent is
filed under `(show, season, episode)` — season packs under episode 0 via the
falsiness of `episode == 0` — and the loop breaks once `limit` results are
collected. -/
def processRows (magnet : String → Option String) (limit : Nat) :
    List Row → ShowsMap → Nat → ShowsMap × Nat
  | [], shows, total => (shows, total)
  | row :: rest, shows, total =>
    match row.name_cell with
    | none => processRows magnet limit rest shows total
    | some nc =>
      match parse_show_title nc.raw_title with
      | none => processRows magnet limit rest shows total
      | some info =>
        match magnet (base_url ++ nc.href) with
        | none => processRows magnet limit rest shows total
        | some mg =>
          let t : Torrent :=
            { quality := info.quality
              type := "tv"
              url := mg
              size := row.size
              seeds := row.seeds
              peers := row.leeches
              date_uploaded := row.date
              video_codec := info.codec }
          let shows' :=
            if info.episode != 0 then
              insertTorrent shows info.title info.season info.episode t
            else
              insertTorrent shows info.title info.season 0 t
          if limit ≤ total + 1 then (shows', total + 1)
          else processRows magnet limit rest shows' (total + 1)

/-- The `while total_results < limit and page <= max_pages` pagination loop
(`max_pages = 5`): `fuel` counts the pages the `page <= max_pages` guard
still admits.  A page-fetch failure propagates; an empty results list or a
missing next-page affordance ends the loop. -/
def crawl (fetch : Nat → Except FetchErr Page) (magnet : String → Option String)
    (limit : Nat) : Nat → Nat → ShowsMap → Nat → Except FetchErr ShowsMap
  | 0, _, shows, _ => .ok shows
  | fuel + 1, page, shows, total =>
    if limit ≤ total then .ok shows
    else
      match fetch page with
      | .error e => .error e
      | .ok p =>
        if p.rows.isEmpty then .ok shows
        else
          let st := processRows magnet limit p.rows shows total
          if p.has_next then crawl fetch magnet limit fuel (page + 1) st.1 st.2
          else .ok st.1

/-- The scalar fields shared by all of one show's Movie records (the
`base_show` dict). -/
structure BaseShow where
  poster_url : String
  rating : Rat
  genres : List String
  description_full : String
  year : Nat
  language : String
  runtime : Nat
  imdb_code : String
  cast : List String
  download_count : Nat
  yt_trailer_code : String
  background_image_original : String

/-- The fallback `base_show` dict used when TMDB returns no hit
(lines 159-172). -/
def defaultBaseShow : BaseShow :=
  { poster_url := ""
    rating := 0
    genres := []
    description_full := "No description available"
    year := 0
    language := "unknown"
    runtime := 0
    imdb_code := ""
    cast := []
    download_count := 0
    yt_trailer_code := ""
    background_image_original := "" }

/-- `Movie(title=..., torrents=..., **base_show)`. -/
def mkMovie {α : Type} (title : String) (ts : List Torrent) (b : BaseShow) :
    Movie α :=
  { title := title
    torrents := ts
    poster_url := b.poster_url
    rating := b.rating
    genres := b.genres
    description_full := b.description_full
    year := b.year
    language := b.language
    runtime := b.runtime
    imdb_code := b.imdb_code
    cast := b.cast
    download_count := b.download_count
    yt_trailer_code := b.yt_trailer_code
    background_image_original := b.background_image_original }

/-- The `clean_name` computed before the TMDB lookup (lines 136-137). -/
def tvCleanName (nm : String) : String :=
  strStrip (String.mk (truncateAtSeasonToken (strStrip (String.mk (removeParenGroups nm.data))).data))

/-- Materialisation of one show's grouped torrents into Movie records
(lines 133-198): a raised TMDB failure skips the whole show; a season's
episode-0 bucket becomes a `"... Season N (Complete)"` record emitted first;
every other episode becomes a `"... SxxEyy"` record in insertion order. -/
def materializeShow {α : Type} (tmdb : String → Except String (Option BaseShow))
    (entry : String × SeasonMap) : List (Movie α) :=
  match tmdb (tvCleanName entry.1) with
  | .error _ => []
  | .ok hit =>
    let base := hit.getD defaultBaseShow
    entry.2.flatMap (fun se =>
      (match se.2.lookup 0 with
       | some ts =>
         [mkMovie (entry.1 ++ " Season " ++ natStr se.1 ++ " (Complete)") ts base]
       | none => []) ++
      se.2.filterMap (fun ep =>
        if ep.1 == 0 then none
        else some (mkMovie (entry.1 ++ " S" ++ pad2 se.1 ++ "E" ++ pad2 ep.1) ep.2 base)))

/-- Embedding of `LeetxTVSearcher._search_leetx_tv`: crawl up to five result
pages, group the parsed rows, then materialise each show with its TMDB
metadata.  Page-level HTTP failures map to the typed errors of the trailing
`except` clauses (lines 202-207). -/
def search_leetx_tv {α : Type} (fetch : Nat → Except FetchErr Page)
    (magnet : String → Option String)
    (tmdb : String → Except String (Option BaseShow)) (limit : Nat) :
    Except SearchErr (List (Movie α)) :=
  match crawl fetch magnet limit 5 1 [] 0 with
  | .error (.httpError m) => .error (.apiError ("Failed to fetch TV series: " ++ m))
  | .error (.connectionFailure _) =>
    .error (.connectionBlocked "Connection blocked. Please ensure your VPN is enabled.")
  | .ok shows => .ok (shows.flatMap (materializeShow tmdb))

end LeetxTVSearcher

/-! ## Helper lemmas about the decimal rendering used in dedup keys -/

theorem digitChar_isDigit {m : Nat} (h : m < 10) : (Nat.digitChar m).isDigit := by
  have hall : ∀ k : Fin 10, (Nat.digitChar k.1).isDigit := by decide
  exact hall ⟨m, h⟩

theorem digitChar_inj_lt {a b : Nat} (ha : a < 10) (hb : b < 10)
    (h : Nat.digitChar a = Nat.digitChar b) : a = b := by
  have hall : ∀ x y : Fin 10, Nat.digitChar x.1 = Nat.digitChar y.1 → x.1 = y.1 := by decide
  exact hall ⟨a, ha⟩ ⟨b, hb⟩ h

theorem natDigitsAux_congr :
    ∀ n f1 f2 : Nat, n < f1 → n < f2 → natDigitsAux f1 n = natDigitsAux f2 n := by
  intro n
  induction n using Nat.strong_induction_on with
  | _ n ih =>
    intro f1 f2 h1 h2
    cases f1 with
    | zero => omega
    | succ a =>
      cases f2 with
      | zero => omega
      | succ b =>
        simp only [natDigitsAux]
        by_cases h : n < 10
        · rw [if_pos h, if_pos h]
        · rw [if_neg h, if_neg h]
          congr 1
          exact ih (n / 10) (Nat.div_lt_self (by omega) (by omega)) a b (by omega) (by omega)

theorem natDigits_eq (n : Nat) :
    natDigits n
      = if n < 10 then [Nat.digitChar n]
        else natDigits (n / 10) ++ [Nat.digitChar (n % 10)] := by
  simp only [natDigits, natDigitsAux]
  by_cases h : n < 10
  · rw [if_pos h, if_pos h]
  · rw [if_neg h, if_neg h]
    congr 1
    exact natDigitsAux_congr (n / 10) n (n / 10 + 1) (by omega) (by omega)

theorem natDigits_lt {n : Nat} (h : n < 10) :
    natDigits n = [Nat.digitChar n] := by
  rw [natDigits_eq, if_pos h]

theorem natDigits_ge {n : Nat} (h : ¬n < 10) :
    natDigits n = natDigits (n / 10) ++ [Nat.digitChar (n % 10)] := by
  rw [natDigits_eq, if_neg h]

theorem natDigits_isDigit (n : Nat) : ∀ c ∈ natDigits n, c.isDigit := by
  induction n using Nat.strong_induction_on with
  | _ n ih =>
    by_cases h : n < 10
    · rw [natDigits_lt h]
      intro c hc
      simp only [List.mem_singleton] at hc
      subst hc
      exact digitChar_isDigit h
    · rw [natDigits_ge h]
      intro c hc
      rcases List.mem_append.mp hc with hc' | hc'
      · exact ih (n / 10) (Nat.div_lt_self (by omega) (by omega)) c hc'
      · simp only [List.mem_singleton] at hc'
        subst hc'
        exact digitChar_isDigit (Nat.mod_lt _ (by omega))

theorem natDigits_ne_nil (n : Nat) : natDigits n ≠ [] := by
  by_cases h : n < 10
  · rw [natDigits_lt h]; simp
  · rw [natDigits_ge h]; simp

theorem snoc_inj {α : Type} {l1 l2 : List α} {x y : α}
    (h : l1 ++ [x] = l2 ++ [y]) : l1 = l2 ∧ x = y := by
  have h' := congrArg List.reverse h
  simp only [List.reverse_append, List.reverse_cons, List.reverse_nil,
    List.nil_append, List.singleton_append, List.cons.injEq] at h'
  exact ⟨List.reverse_injective h'.2, h'.1⟩

theorem natDigits_inj : ∀ a b : Nat, natDigits a = natDigits b → a = b := by
  intro a
  induction a using Nat.strong_induction_on with
  | _ a ih =>
    intro b h
    by_cases ha : a < 10 <;> by_cases hb : b < 10
    · rw [natDigits_lt ha, natDigits_lt hb] at h
      simp only [List.cons.injEq] at h
      exact digitChar_inj_lt ha hb h.1
    · rw [natDigits_lt ha, natDigits_ge hb] at h
      exfalso
      rcases hne : natDigits (b / 10) with _ | ⟨c, cs⟩
      · exact natDigits_ne_nil _ hne
      · rw [hne] at h
        simp at h
    · rw [natDigits_ge ha, natDigits_lt hb] at h
      exfalso
      rcases hne : natDigits (a / 10) with _ | ⟨c, cs⟩
      · exact natDigits_ne_nil _ hne
      · rw [hne] at h
        simp at h
    · rw [natDigits_ge ha, natDigits_ge hb] at h
      obtain ⟨h1, h2⟩ := snoc_inj h
      have hd : a % 10 = b % 10 :=
        digitChar_inj_lt (Nat.mod_lt _ (by omega)) (Nat.mod_lt _ (by omega)) h2
      have hq : a / 10 = b / 10 :=
        ih (a / 10) (Nat.div_lt_self (by omega) (by omega)) (b / 10) h1
      omega

theorem natDigits_no_underscore (n : Nat) : '_' ∉ natDigits n := by
  intro hmem
  have := natDigits_isDigit n '_' hmem
  exact absurd this (by decide)

/-- First-occurrence splitting: if an element occurs in neither left part,
splitting two equal lists at that element is unambiguous. -/
theorem cons_split_inj {α : Type} {c : α} :
    ∀ {a1 a2 b1 b2 : List α}, a1 ++ c :: b1 = a2 ++ c :: b2 →
      c ∉ a1 → c ∉ a2 → a1 = a2 ∧ b1 = b2 := by
  intro a1
  induction a1 with
  | nil =>
    intro a2 b1 b2 h h1 h2
    cases a2 with
    | nil =>
      simp only [List.nil_append, List.cons.injEq] at h
      exact ⟨rfl, h.2⟩
    | cons x xs =>
      simp only [List.nil_append, List.cons_append, List.cons.injEq] at h
      exact absurd (h.1 ▸ List.mem_cons_self x xs) h2
  | cons x xs ih =>
    intro a2 b1 b2 h h1 h2
    cases a2 with
    | nil =>
      simp only [List.cons_append, List.nil_append, List.cons.injEq] at h
      exact absurd (h.1 ▸ List.mem_cons_self x xs) h1
    | cons y ys =>
      simp only [List.cons_append, List.cons.injEq] at h
      obtain ⟨rfl, h'⟩ := h
      have h1' : c ∉ xs := fun hc => h1 (List.mem_cons_of_mem _ hc)
      have h2' : c ∉ ys := fun hc => h2 (List.mem_cons_of_mem _ hc)
      obtain ⟨rfl, rfl⟩ := ih h' h1' h2'
      exact ⟨rfl, rfl⟩

/-- Last-occurrence splitting, used with the year suffix on the right of the
dedup key's underscore. -/
theorem key_split {t1 t2 y1 y2 : List Char}
    (h : t1 ++ '_' :: y1 = t2 ++ '_' :: y2)
    (hy1 : '_' ∉ y1) (hy2 : '_' ∉ y2) : t1 = t2 ∧ y1 = y2 := by
  have h' := congrArg List.reverse h
  simp only [List.reverse_append, List.reverse_cons, List.append_assoc,
    List.singleton_append] at h'
  have hy1' : '_' ∉ y1.reverse := by simpa using hy1
  have hy2' : '_' ∉ y2.reverse := by simpa using hy2
  obtain ⟨e1, e2⟩ := cons_split_inj h' hy1' hy2'
  constructor
  · exact List.reverse_injective e2
  · exact List.reverse_injective e1

theorem data_mk (l : List Char) : (String.mk l).data = l := rfl

theorem dedupKey_eq_iff {α : Type} (m1 m2 : Movie α) :
    TorrentSearcher.dedupKey m1 = TorrentSearcher.dedupKey m2 ↔
      (strLower m1.title = strLower m2.title ∧ m1.year = m2.year) := by
  constructor
  · intro h
    have hd := congrArg String.data h
    simp only [TorrentSearcher.dedupKey, String.data_append, natStr, data_mk,
      List.append_assoc] at hd
    have hd' : (strLower m1.title).data ++ '_' :: natDigits m1.year
        = (strLower m2.title).data ++ '_' :: natDigits m2.year := by
      simpa using hd
    obtain ⟨e1, e2⟩ := key_split hd'
      (natDigits_no_underscore m1.year) (natDigits_no_underscore m2.year)
    exact ⟨String.ext e1, natDigits_inj _ _ e2⟩
  · rintro ⟨h1, h2⟩
    simp [TorrentSearcher.dedupKey, h1, h2]

/-! ## Claim C1: pairwise dedup + merge -/

/-- C1.  Two records are identified as the same logical title exactly when
their lower-cased titles and their years coincide (the string key
`f"{title.lower()}_{year}"` collides in no other situation, since the year
suffix contains no underscore); on such a collision the surviving record is
the first-seen one with the later record's torrents appended in order after
its own, every other field untouched; without a collision both records
survive unchanged. -/
theorem dedup_merge_pairwise {α : Type} (m1 m2 : Movie α) :
    (TorrentSearcher.dedupKey m1 = TorrentSearcher.dedupKey m2 ↔
      (strLower m1.title = strLower m2.title ∧ m1.year = m2.year)) ∧
    (TorrentSearcher.dedupKey m1 = TorrentSearcher.dedupKey m2 →
      TorrentSearcher.deduplicate_results [m1, m2] =
        [{ m1 with torrents := m1.torrents ++ m2.torrents }]) ∧
    (TorrentSearcher.dedupKey m1 ≠ TorrentSearcher.dedupKey m2 →
      TorrentSearcher.deduplicate_results [m1, m2] = [m1, m2]) := by
  refine ⟨dedupKey_eq_iff m1 m2, ?_, ?_⟩
  · intro h
    simp [TorrentSearcher.deduplicate_results, TorrentSearcher.dedupGo,
      TorrentSearcher.mergeFirst, h]
  · intro h
    have hb : (TorrentSearcher.dedupKey m1 == TorrentSearcher.dedupKey m2) = false := by
      simpa using h
    simp [TorrentSearcher.deduplicate_results, TorrentSearcher.dedupGo,
      TorrentSearcher.mergeFirst, hb]

/-- A concrete movie used to instantiate witnesses. -/
def baseMovie : Movie Unit :=
  { title := "Inception"
    torrents := []
    poster_url := ""
    rating := 0
    genres := []
    description_full := ""
    year := 2010
    language := "en"
    runtime := 148
    imdb_code := "tt1375666"
    cast := []
    download_count := 0
    yt_trailer_code := ""
    background_image_original := "" }

def movieA : Movie Unit :=
  { baseMovie with
    torrents := [⟨"1080p", "movie", "url-a", "2 GB", 50, 10, "2010-07-16", "x264"⟩] }

def movieB : Movie Unit :=
  { baseMovie with
    title := "INCEPTION"
    torrents := [⟨"720p", "movie", "url-b", "1 GB", 20, 5, "2010-07-16", "x264"⟩] }

/-- Witness for C1 at concrete colliding records. -/
theorem dedup_merge_pairwise_check :
    TorrentSearcher.deduplicate_results [movieA, movieB] =
      [{ movieA with torrents := movieA.torrents ++ movieB.torrents }] :=
  (dedup_merge_pairwise movieA movieB).2.1 (by decide)

/-! ## Claim C6: dedup idempotence -/

theorem dedupKey_update_torrents {α : Type} (x : Movie α) (ts : List Torrent) :
    TorrentSearcher.dedupKey { x with torrents := ts } = TorrentSearcher.dedupKey x := rfl

theorem mergeFirst_keys {α : Type} (m : Movie α) :
    ∀ u : List (Movie α),
      (TorrentSearcher.mergeFirst u m).map TorrentSearcher.dedupKey
        = u.map TorrentSearcher.dedupKey := by
  intro u
  induction u with
  | nil => rfl
  | cons x xs ih =>
    rw [TorrentSearcher.mergeFirst]
    by_cases hx : TorrentSearcher.dedupKey x == TorrentSearcher.dedupKey m
    · simp [hx, dedupKey_update_torrents]
    · simp [hx, ih]

theorem dedupGo_keys_nodup {α : Type} :
    ∀ (l acc : List (Movie α)),
      (acc.map TorrentSearcher.dedupKey).Nodup →
      ((TorrentSearcher.dedupGo acc l).map TorrentSearcher.dedupKey).Nodup := by
  intro l
  induction l with
  | nil =>
    intro acc h
    simpa [TorrentSearcher.dedupGo] using h
  | cons m rest ih =>
    intro acc h
    rw [TorrentSearcher.dedupGo]
    by_cases hc : acc.any (fun x => TorrentSearcher.dedupKey x == TorrentSearcher.dedupKey m)
    · rw [if_pos hc]
      exact ih _ (by rw [mergeFirst_keys]; exact h)
    · rw [if_neg hc]
      apply ih
      have hm : TorrentSearcher.dedupKey m ∉ acc.map TorrentSearcher.dedupKey := by
        simp only [List.any_eq_true, beq_iff_eq, not_exists, not_and] at hc
        simp only [List.mem_map, not_exists, not_and]
        intro x hx
        exact fun hk => absurd hk (by simpa using hc x hx)
      simp only [List.map_append, List.map_cons, List.map_nil]
      exact List.Nodup.append h (List.nodup_singleton _)
        (by simpa [List.disjoint_singleton] using hm)

theorem dedupGo_self {α : Type} :
    ∀ (l acc : List (Movie α)),
      ((acc ++ l).map TorrentSearcher.dedupKey).Nodup →
      TorrentSearcher.dedupGo acc l = acc ++ l := by
  intro l
  induction l with
  | nil =>
    intro acc h
    simp [TorrentSearcher.dedupGo]
  | cons m rest ih =>
    intro acc h
    rw [TorrentSearcher.dedupGo]
    have hm : TorrentSearcher.dedupKey m ∉ acc.map TorrentSearcher.dedupKey := by
      rw [List.map_append] at h
      obtain ⟨-, -, hdisj⟩ := List.nodup_append.mp h
      intro hmem
      exact hdisj hmem (by simp)
    have hc : acc.any (fun x => TorrentSearcher.dedupKey x == TorrentSearcher.dedupKey m) = false := by
      rw [List.any_eq_false]
      intro x hx
      simp only [beq_iff_eq]
      exact fun hk => hm (List.mem_map.mpr ⟨x, hx, hk⟩)
    rw [if_neg (by simp [hc])]
    have h' : (((acc ++ [m]) ++ rest).map TorrentSearcher.dedupKey).Nodup := by
      rw [List.append_assoc]
      simpa using h
    rw [ih (acc ++ [m]) h', List.append_assoc]
    simp

/-- C6.  Running the dedup+merge step twice equals running it once: after one
pass all dedup keys are pairwise distinct, so the second pass performs no
merge and every surviving record (in particular its torrent count) is
unchanged. -/
theorem dedup_idempotent {α : Type} (l : List (Movie α)) :
    TorrentSearcher.deduplicate_results (TorrentSearcher.deduplicate_results l)
      = TorrentSearcher.deduplicate_results l := by
  have hnd : ((TorrentSearcher.deduplicate_results l).map TorrentSearcher.dedupKey).Nodup :=
    dedupGo_keys_nodup l [] (by simp)
  have hself := dedupGo_self (TorrentSearcher.deduplicate_results l) [] (by simpa using hnd)
  simpa [TorrentSearcher.deduplicate_results] using hself

/-! ## Claim C10: `with_metadata` frame -/

/-- C10.  `with_metadata` produces a fresh record whose fourteen primary
fields are copied from the receiver and whose `metadata` field is the given
dict, while `metacritic_url` and `metacritic_info` are always reset to the
dataclass defaults `''` / `None` — so metacritic enrichment previously
attached by `with_metacritic_data` is dropped by a subsequent
`with_metadata` (second conjunct); the receiver itself, being a frozen
dataclass, is unchanged (in this pure embedding, trivially so). -/
theorem with_metadata_resets_metacritic {α : Type} (m : Movie α) (u : String) (i d : α) :
    m.with_metadata d
      = { m with metadata := some d, metacritic_url := "", metacritic_info := none } ∧
    (m.with_metacritic_data u i).with_metadata d
      = { m with metadata := some d, metacritic_url := "", metacritic_info := none } := by
  cases m
  exact ⟨rfl, rfl⟩

/-! ## Claim C7: cache TTL -/

/-- C7.  After `set` at time `T`, a `get` 4 minutes later hits and returns
the stored payload (leaving the store unchanged), while a `get` 6 minutes
later — the TTL being 5 minutes — misses and deletes the backing entry, so
the entry no longer exists afterwards. -/
theorem cache_ttl_roundtrip {δ : Type} (store : Cache.Store δ) (T : Nat)
    (key : String) (data : δ) :
    (Cache.get (Cache.set store T key data) (T + 240) key).1 = some data ∧
    (Cache.get (Cache.set store T key data) (T + 240) key).2 = Cache.set store T key data ∧
    (Cache.get (Cache.set store T key data) (T + 360) key).1 = none ∧
    (Cache.get (Cache.set store T key data) (T + 360) key).2 (Cache.sanitizeKey key) = none := by
  have hset : Cache.set store T key data (Cache.sanitizeKey key)
      = some { timestamp := T, data := data } := by
    simp [Cache.set]
  have h240 : ¬(Cache.cache_duration < 240) := by decide
  have h360 : Cache.cache_duration < 360 := by decide
  refine ⟨?_, ?_, ?_, ?_⟩
  · simp [Cache.get, hset, h240]
  · simp [Cache.get, hset, h240]
  · simp [Cache.get, hset, h360]
  · simp [Cache.get, hset, h360]

/-! ## Claim C3: connection-blocked error type at the public boundary -/

/-- C3 (code evaluated at the failing input).  When the transport raises a
connection-reset condition, the internal `_search_yts` does raise
`ConnectionBlockedError`, but the public `search_movies` — whose
`except Exception` clause catches every exception — re-raises it as the
generic base `MovieSearchError("Search failed: ...")`, so the distinguished
error type never escapes the public search operation. -/
theorem yts_connection_blocked_masked :
    YTSSearcher.search_yts
        (TransportOutcome.connectionReset "Connection reset by peer"
          : TransportOutcome (List (Movie Unit)))
      = .error (.connectionBlocked
          "Connection blocked. Please ensure your VPN is enabled and try again.") ∧
    YTSSearcher.search_movies
        (TransportOutcome.connectionReset "Connection reset by peer"
          : TransportOutcome (List (Movie Unit)))
      = .error (.searchError
          "Search failed: Connection blocked. Please ensure your VPN is enabled and try again.") ∧
    ∀ msg : String,
      YTSSearcher.search_movies
          (TransportOutcome.connectionReset "Connection reset by peer"
            : TransportOutcome (List (Movie Unit)))
        ≠ .error (.connectionBlocked msg) := by
  refine ⟨rfl, rfl, ?_⟩
  intro msg
  simp [YTSSearcher.search_movies, YTSSearcher.search_yts, SearchErr.message]

/-! ## Claim C8: retry policy of `make_api_request` -/

/-- C8.  `make_api_request` performs at most three attempts: attempt 0 is the
fast minimal-header low-timeout attempt with no backoff; attempts 1 and 2
are resilient browser-like-header attempts, each preceded by an exponential
backoff sleep of `0.5 * 2 ** attempt` seconds (1000 ms, then 2000 ms).  The
first success is returned at once with no further attempt issued, and when
all three attempts fail the final attempt's failure propagates to the
caller. -/
theorem make_api_request_retry_policy {ρ : Type}
    (outcomes : Nat → Except HttpClient.ReqError ρ) :
    (∀ r, outcomes 0 = .ok r →
      HttpClient.make_api_request outcomes
        = (some (.ok r), [{ fast := true, delayMs := 0 }])) ∧
    (∀ e0 r, outcomes 0 = .error e0 → outcomes 1 = .ok r →
      HttpClient.make_api_request outcomes
        = (some (.ok r),
           [{ fast := true, delayMs := 0 }, { fast := false, delayMs := 1000 }])) ∧
    (∀ e0 e1 r, outcomes 0 = .error e0 → outcomes 1 = .error e1 → outcomes 2 = .ok r →
      HttpClient.make_api_request outcomes
        = (some (.ok r),
           [{ fast := true, delayMs := 0 }, { fast := false, delayMs := 1000 },
            { fast := false, delayMs := 2000 }])) ∧
    (∀ e0 e1 e2, outcomes 0 = .error e0 → outcomes 1 = .error e1 → outcomes 2 = .error e2 →
      HttpClient.make_api_request outcomes
        = (some (.error e2),
           [{ fast := true, delayMs := 0 }, { fast := false, delayMs := 1000 },
            { fast := false, delayMs := 2000 }])) := by
  refine ⟨?_, ?_, ?_, ?_⟩
  · intro r h0
    simp [HttpClient.make_api_request, HttpClient.runAttempts, HttpClient.retries,
      HttpClient.attemptInfo, h0]
  · intro e0 r h0 h1
    simp [HttpClient.make_api_request, HttpClient.runAttempts, HttpClient.retries,
      HttpClient.attemptInfo, h0, h1]
  · intro e0 e1 r h0 h1 h2
    simp [HttpClient.make_api_request, HttpClient.runAttempts, HttpClient.retries,
      HttpClient.attemptInfo, h0, h1, h2]
  · intro e0 e1 e2 h0 h1 h2
    simp [HttpClient.make_api_request, HttpClient.runAttempts, HttpClient.retries,
      HttpClient.attemptInfo, h0, h1, h2]

/-- A concrete outcome sequence: the fast attempt times out, the first
resilient attempt succeeds. -/
def demoOutcomes : Nat → Except HttpClient.ReqError Nat :=
  fun n => if n == 0 then .error (.requestError "ReadTimeout") else .ok 42

/-- Witness for C8: the fast attempt fails, the first resilient attempt
(after a 1000 ms backoff) succeeds, and no third attempt is issued. -/
theorem make_api_request_retry_policy_check :
    HttpClient.make_api_request demoOutcomes
      = (some (.ok 42),
         [{ fast := true, delayMs := 0 }, { fast := false, delayMs := 1000 }]) :=
  (make_api_request_retry_policy demoOutcomes).2.1 (.requestError "ReadTimeout") 42 rfl rfl

/-! ## Claim C2: the sort step and empty torrent lists -/

/-- Counterexample to C2 as stated: a deduplicated list containing a record
with an empty torrent list makes the sort step of `TorrentSearcher.search`
raise `ValueError` (Python's `max` on an empty sequence) instead of handling
the record. -/
theorem sort_step_empty_raises :
    TorrentSearcher.sort_step [baseMovie] 50
      = .error "ValueError: max() arg is an empty sequence" := rfl

/-- C2 as amended.  Whenever every record has at least one torrent, the sort
step succeeds and returns the stable descending sort by maximum seed count,
truncated to `limit` (the output is sorted descending by the seed key and
the pre-truncation sort is a permutation of the input); but a record with an
empty torrent list makes the sort step raise `ValueError` rather than being
treated as seed count 0 or excluded. -/
theorem sort_step_descending {α : Type} (l : List (Movie α)) (limit : Nat)
    (h : ∀ m ∈ l, m.torrents ≠ []) :
    TorrentSearcher.sort_step l limit
      = .ok ((l.mergeSort TorrentSearcher.seedLe).take limit) ∧
    List.Sorted (fun a b : Movie α => TorrentSearcher.seedKey b ≤ TorrentSearcher.seedKey a)
      ((l.mergeSort TorrentSearcher.seedLe).take limit) ∧
    (l.mergeSort TorrentSearcher.seedLe).Perm l ∧
    (∀ l' : List (Movie α), (∃ m ∈ l', m.torrents = []) →
      TorrentSearcher.sort_step l' limit
        = .error "ValueError: max() arg is an empty sequence") := by
  refine ⟨?_, ?_, List.mergeSort_perm l _, ?_⟩
  · rw [TorrentSearcher.sort_step, if_pos]
    rw [List.all_eq_true]
    intro m hm
    simpa using h m hm
  · have htrans : ∀ a b c : Movie α,
        TorrentSearcher.seedLe a b = true → TorrentSearcher.seedLe b c = true →
        TorrentSearcher.seedLe a c = true := by
      intro a b c hab hbc
      simp only [TorrentSearcher.seedLe, decide_eq_true_eq] at *
      omega
    have htotal : ∀ a b : Movie α,
        (TorrentSearcher.seedLe a b || TorrentSearcher.seedLe b a) = true := by
      intro a b
      simp only [TorrentSearcher.seedLe, Bool.or_eq_true, decide_eq_true_eq]
      omega
    have hs := List.sorted_mergeSort htrans htotal l
    have hs' : List.Pairwise
        (fun a b : Movie α => TorrentSearcher.seedKey b ≤ TorrentSearcher.seedKey a)
        (l.mergeSort TorrentSearcher.seedLe) := by
      refine hs.imp ?_
      intro a b hab
      simpa [TorrentSearcher.seedLe] using hab
    exact List.Pairwise.sublist (List.take_sublist _ _) hs'
  · intro l' hex
    rw [TorrentSearcher.sort_step, if_neg]
    intro hall
    rw [List.all_eq_true] at hall
    obtain ⟨m, hm, hempty⟩ := hex
    have := hall m hm
    simp [hempty] at this

def movieLowSeeds : Movie Unit :=
  { baseMovie with
    title := "Low"
    torrents := [⟨"720p", "movie", "url-lo", "1 GB", 2, 1, "2020-01-01", "x264"⟩] }

def movieHighSeeds : Movie Unit :=
  { baseMovie with
    title := "High"
    torrents := [⟨"1080p", "movie", "url-hi", "2 GB", 5, 1, "2020-01-01", "x264"⟩] }

/-- Witness for the amended C2 at a concrete two-element list. -/
theorem sort_step_descending_check :
    TorrentSearcher.sort_step [movieLowSeeds, movieHighSeeds] 50
      = .ok (([movieLowSeeds, movieHighSeeds].mergeSort TorrentSearcher.seedLe).take 50) :=
  (sort_step_descending [movieLowSeeds, movieHighSeeds] 50 (by decide)).1

/-! ## Claim C5: category grouping of the source registry -/

/-- Counterexample to C5 as stated: RARBG is tagged with the catch-all
category `"All"`, yet it does not appear in the offered list of the
`"Movies"` category — `get_sources_by_category` only files a source under
its own category (plus wherever the priority lists explicitly place it). -/
theorem rarbg_not_in_movies_list :
    TorrentSource.category TorrentSource.RARBG = "All" ∧
    TorrentSource.lookupAssoc TorrentSource.get_sources_by_category "Movies"
      = some [TorrentSource.YTS] ∧
    TorrentSource.RARBG ∉
      (TorrentSource.lookupAssoc TorrentSource.get_sources_by_category "Movies").getD [] := by
  refine ⟨rfl, by decide, by decide⟩

/-- C5 as amended.  Each category's offered list is exactly its explicit
priority list followed by the remaining enum-order sources of that same
category (for the current registry the remainder is empty, so the mapping
coincides with the priority lists); hence explicitly prioritized sources
precede un-prioritized ones within each category, a source tagged `"All"`
is offered under `"All"` (and under another category only when its priority
list names it, as with LEETX under `"TV Series"`), and it is not included
in every other category's list. -/
theorem sources_by_category_structure :
    TorrentSource.get_sources_by_category
      = TorrentSource.category_order.map
          (fun e => (e.1, e.2 ++ TorrentSource.all.filter
            (fun s => TorrentSource.category s == e.1 && !e.2.contains s))) ∧
    TorrentSource.get_sources_by_category = TorrentSource.category_order ∧
    (∀ s ∈ TorrentSource.all, TorrentSource.category s = "All" →
      s ∈ (TorrentSource.lookupAssoc TorrentSource.get_sources_by_category "All").getD []) := by
  refine ⟨by decide, by decide, by decide⟩

/-! ## Claim C9: URL-candidate probing order -/

theorem probeLoop_first (probe : String → Option Nat) :
    ∀ (pre : List String) (u : String) (post : List String),
      (∀ v ∈ pre, probe v ≠ some 200) → probe u = some 200 →
      probeLoop probe (pre ++ u :: post) = (u, pre ++ [u]) := by
  intro pre
  induction pre with
  | nil =>
    intro u post _ hu
    simp [probeLoop, hu]
  | cons p ps ih =>
    intro u post hpre hu
    have hp : (probe p == some 200) = false := by
      simpa using hpre p (by simp)
    simp only [List.cons_append, probeLoop, hp, Bool.false_eq_true, if_false,
      List.append_eq]
    rw [ih u post (fun v hv => hpre v (List.mem_cons_of_mem _ hv)) hu]

theorem probeLoop_none (probe : String → Option Nat) :
    ∀ urls : List String, (∀ v ∈ urls, probe v ≠ some 200) →
      probeLoop probe urls = ("", urls) := by
  intro urls
  induction urls with
  | nil => intro _; rfl
  | cons p ps ih =>
    intro hall
    have hp : (probe p == some 200) = false := by
      simpa using hall p (by simp)
    simp only [probeLoop, hp, Bool.false_eq_true, if_false]
    rw [ih (fun v hv => hall v (List.mem_cons_of_mem _ hv))]

/-- C9.  For both metadata adapters, `get_url` probes the fixed ordered
candidate list one by one: if the candidates split as `pre ++ u :: post`
where every candidate of `pre` fails its probe and `u` probes with status
200, the adapter returns `u` and the probed candidates are exactly
`pre ++ [u]` — nothing in `post` is ever probed; and when every candidate
fails, the adapter probes them all and returns the empty string. -/
theorem get_url_first_success (probe : String → Option Nat) (title : String) (year : Nat) :
    (∀ pre u post,
      MetacriticSource.url_patterns title year = pre ++ u :: post →
      (∀ v ∈ pre, probe v ≠ some 200) → probe u = some 200 →
      MetacriticSource.get_url probe title year = u ∧
      MetacriticSource.probed probe title year = pre ++ [u]) ∧
    ((∀ v ∈ MetacriticSource.url_patterns title year, probe v ≠ some 200) →
      MetacriticSource.get_url probe title year = "" ∧
      MetacriticSource.probed probe title year = MetacriticSource.url_patterns title year) ∧
    (∀ pre u post,
      RottenTomatoesSource.url_patterns title year = pre ++ u :: post →
      (∀ v ∈ pre, probe v ≠ some 200) → probe u = some 200 →
      RottenTomatoesSource.get_url probe title year = u ∧
      RottenTomatoesSource.probed probe title year = pre ++ [u]) ∧
    ((∀ v ∈ RottenTomatoesSource.url_patterns title year, probe v ≠ some 200) →
      RottenTomatoesSource.get_url probe title year = "" ∧
      RottenTomatoesSource.probed probe title year = RottenTomatoesSource.url_patterns title year) := by
  refine ⟨?_, ?_, ?_, ?_⟩
  · intro pre u post hsplit hpre hu
    rw [MetacriticSource.get_url, MetacriticSource.probed, hsplit,
      probeLoop_first probe pre u post hpre hu]
    exact ⟨rfl, rfl⟩
  · intro hall
    rw [MetacriticSource.get_url, MetacriticSource.probed, probeLoop_none probe _ hall]
    exact ⟨rfl, rfl⟩
  · intro pre u post hsplit hpre hu
    rw [RottenTomatoesSource.get_url, RottenTomatoesSource.probed, hsplit,
      probeLoop_first probe pre u post hpre hu]
    exact ⟨rfl, rfl⟩
  · intro hall
    rw [RottenTomatoesSource.get_url, RottenTomatoesSource.probed, probeLoop_none probe _ hall]
    exact ⟨rfl, rfl⟩

/-- A concrete probe: only the third Metacritic candidate for
"Inception" (2010) resolves with status 200; every other URL returns 404. -/
def demoProbe : String → Option Nat :=
  fun u => if u == "https://www.metacritic.com/movie/inception-2010/" then some 200 else some 404

/-- Witness for C9: with only candidate 3 succeeding, `get_url` returns
candidate 3 and candidates after it are never probed. -/
theorem get_url_first_success_check :
    MetacriticSource.get_url demoProbe "Inception" 2010
      = "https://www.metacritic.com/movie/inception-2010/" ∧
    MetacriticSource.probed demoProbe "Inception" 2010
      = ["https://www.metacritic.com/movie/inception/",
         "https://www.metacritic.com/tv/inception/",
         "https://www.metacritic.com/movie/inception-2010/"] :=
  (get_url_first_success demoProbe "Inception" 2010).1
    ["https://www.metacritic.com/movie/inception/",
     "https://www.metacritic.com/tv/inception/"]
    "https://www.metacritic.com/movie/inception-2010/"
    ["https://www.metacritic.com/tv/inception-2010/"]
    (by decide) (by decide) (by decide)

/-! ## Claim C4: a results page with one pattern-less row -/

namespace LeetxTVSearcher

def demoRow1 : Row :=
  { name_cell := some { raw_title := "Show.S01E01.1080p.x264", href := "/torrent/1" }
    size := "1 GB", seeds := 10, leeches := 2, date := "Jan. 1st" }

/-- Row 2: a release name matching none of the season/episode patterns and
none of the season-pack patterns. -/
def demoRow2 : Row :=
  { name_cell := some { raw_title := "Great Documentary 1080p x264", href := "/torrent/2" }
    size := "2 GB", seeds := 7, leeches := 1, date := "Jan. 2nd" }

def demoRow3 : Row :=
  { name_cell := some { raw_title := "Show.S01E02.1080p.x264", href := "/torrent/3" }
    size := "1 GB", seeds := 9, leeches := 2, date := "Jan. 3rd" }

def demoPage : Page := { rows := [demoRow1, demoRow2, demoRow3], has_next := false }

def demoFetch : Nat → Except FetchErr Page := fun _ => .ok demoPage

/-- Every detail page carries a magnet link. -/
def demoMagnet : String → Option String := fun _ => some "magnet:?xt=demo"

/-- Row 2's detail page carries no magnet link (extraction raises there). -/
def demoMagnetMissing2 : String → Option String :=
  fun u => if u == "https://1337x.to/torrent/2" then none else some "magnet:?xt=demo"

/-- TMDB finds none of the shows (the default `base_show` is used). -/
def demoTmdb : String → Except String (Option BaseShow) := fun _ => .ok none

def demoT1 : Torrent := ⟨"1080p", "tv", "magnet:?xt=demo", "1 GB", 10, 2, "Jan. 1st", "x264"⟩
def demoT2 : Torrent := ⟨"1080p", "tv", "magnet:?xt=demo", "2 GB", 7, 1, "Jan. 2nd", "x264"⟩
def demoT3 : Torrent := ⟨"1080p", "tv", "magnet:?xt=demo", "1 GB", 9, 2, "Jan. 3rd", "x264"⟩

end LeetxTVSearcher

/-- Counterexample to C4 as stated: on the 3-row page whose row 2 matches no
pattern, `_search_leetx_tv` returns three structured results, not two — the
pattern-less row is not skipped; it surfaces as the season-0 season-pack
record `"Great Documentary 1080p x264 Season 0 (Complete)"`. -/
theorem leetx_three_rows_counterexample :
    (match (LeetxTVSearcher.search_leetx_tv LeetxTVSearcher.demoFetch
        LeetxTVSearcher.demoMagnet LeetxTVSearcher.demoTmdb 50
        : Except SearchErr (List (Movie Unit))) with
     | .ok l => l.length
     | .error _ => 0) = 3 ∧
    (match (LeetxTVSearcher.search_leetx_tv LeetxTVSearcher.demoFetch
        LeetxTVSearcher.demoMagnet LeetxTVSearcher.demoTmdb 50
        : Except SearchErr (List (Movie Unit))) with
     | .ok l => l.map Movie.title
     | .error _ => []) =
      ["Show S01E01", "Show S01E02",
       "Great Documentary 1080p x264 Season 0 (Complete)"] :=
  ⟨rfl, rfl⟩

/-- C4 as amended.  A row whose release name matches no season/episode and
no season-pack pattern is not skipped: `_parse_show_title` still returns a
parse (season 0, episode 0, cleaned full title), the `if not show_info`
guard never fires, and the row is materialised as a `"... Season 0
(Complete)"` record — the 3-row page yields all three structured results
without raising.  A row is skipped (logged, non-fatal) only when its
extraction raises, e.g. when its detail page yields no magnet link, in
which case the page yields the remaining two results without raising. -/
theorem leetx_unmatched_row_included :
    LeetxTVSearcher.parse_show_title "Great Documentary 1080p x264"
      = some { title := "Great Documentary 1080p x264", season := 0, episode := 0,
               quality := "1080p", codec := "x264" } ∧
    (LeetxTVSearcher.search_leetx_tv LeetxTVSearcher.demoFetch
        LeetxTVSearcher.demoMagnet LeetxTVSearcher.demoTmdb 50
        : Except SearchErr (List (Movie Unit)))
      = .ok [LeetxTVSearcher.mkMovie "Show S01E01" [LeetxTVSearcher.demoT1]
               LeetxTVSearcher.defaultBaseShow,
             LeetxTVSearcher.mkMovie "Show S01E02" [LeetxTVSearcher.demoT3]
               LeetxTVSearcher.defaultBaseShow,
             LeetxTVSearcher.mkMovie "Great Documentary 1080p x264 Season 0 (Complete)"
               [LeetxTVSearcher.demoT2] LeetxTVSearcher.defaultBaseShow] ∧
    (LeetxTVSearcher.search_leetx_tv LeetxTVSearcher.demoFetch
        LeetxTVSearcher.demoMagnetMissing2 LeetxTVSearcher.demoTmdb 50
        : Except SearchErr (List (Movie Unit)))
      = .ok [LeetxTVSearcher.mkMovie "Show S01E01" [LeetxTVSearcher.demoT1]
               LeetxTVSearcher.defaultBaseShow,
             LeetxTVSearcher.mkMovie "Show S01E02" [LeetxTVSearcher.demoT3]
               LeetxTVSearcher.defaultBaseShow] :=
  ⟨rfl, rfl, rfl⟩

/-- Witness for C3's quantified conjunct at the message the source would
carry: even with the exact VPN message, the public result is not a
`ConnectionBlockedError`. -/
theorem yts_connection_blocked_masked_check :
    YTSSearcher.search_movies
        (TransportOutcome.connectionReset "Connection reset by peer"
          : TransportOutcome (List (Movie Unit)))
      ≠ .error (.connectionBlocked
          "Connection blocked. Please ensure your VPN is enabled and try again.") :=
  yts_connection_blocked_masked.2.2
    "Connection blocked. Please ensure your VPN is enabled and try again."

/-- Witness for the amended C5 at a concrete source: RARBG, tagged "All", is
offered under the "All" category. -/
theorem sources_by_category_structure_check :
    TorrentSource.RARBG ∈
      (TorrentSource.lookupAssoc TorrentSource.get_sources_by_category "All").getD [] :=
  sources_by_category_structure.2.2 TorrentSource.RARBG (by decide) (by decide)
